import Mathlib

/-!
Shallow embedding of the NGII_ICUH terrain-analysis pipeline
(src/analysis/terrain_analysis.py, src/analysis/site_evaluation.py,
src/analysis/app.py).

Rasters are modelled as `Grid`: a rectangular array of real-valued cells
given by its dimensions together with a total data function; only the
cells with `i < rows` and `j < cols` are meaningful.  Floating-point
numbers are modelled by exact reals.
-/

noncomputable section

/-- A 2D raster grid: `rows × cols` cells of real values.  `data i j` is the
value at row `i`, column `j`; indices outside the grid carry junk values. -/
structure Grid where
  rows : ℕ
  cols : ℕ
  data : ℕ → ℕ → ℝ

/-- Mirrors `np.zeros_like(g)`: a grid of the same shape holding zeros. -/
def Grid.zerosLike (g : Grid) : Grid :=
  ⟨g.rows, g.cols, fun _ _ => 0⟩

/-- Pointwise map over a grid, as numpy elementwise ufuncs do. -/
def Grid.map (f : ℝ → ℝ) (g : Grid) : Grid :=
  ⟨g.rows, g.cols, fun i j => f (g.data i j)⟩

/-- Row-major list of the in-bounds cell values of a grid
(the order numpy flattening uses). -/
def Grid.cellList (g : Grid) : List ℝ :=
  (List.range g.rows).flatMap (fun i => (List.range g.cols).map (g.data i))

/-- Mirrors `np.nanmin` on an all-finite grid: the least cell value
(0 on an empty grid, where numpy would raise). -/
def Grid.minVal (g : Grid) : ℝ :=
  match g.cellList with
  | [] => 0
  | x :: xs => xs.foldl min x

/-- Mirrors `np.nanmax` on an all-finite grid: the greatest cell value
(0 on an empty grid, where numpy would raise). -/
def Grid.maxVal (g : Grid) : ℝ :=
  match g.cellList with
  | [] => 0
  | x :: xs => xs.foldl max x

/-- Mirrors `np.gradient(g, h)` along axis 0 (rows): central differences in
the interior, one-sided differences at the first and last row.  numpy
requires at least two rows; on smaller grids the code raises and the values
here are junk. -/
def npGradient0 (g : Grid) (h : ℝ) : Grid :=
  ⟨g.rows, g.cols, fun i j =>
    if i = 0 then (g.data 1 j - g.data 0 j) / h
    else if i = g.rows - 1 then (g.data i j - g.data (i - 1) j) / h
    else (g.data (i + 1) j - g.data (i - 1) j) / (2 * h)⟩

/-- Mirrors `np.gradient(g, h)` along axis 1 (columns). -/
def npGradient1 (g : Grid) (h : ℝ) : Grid :=
  ⟨g.rows, g.cols, fun i j =>
    if j = 0 then (g.data i 1 - g.data i 0) / h
    else if j = g.cols - 1 then (g.data i j - g.data i (j - 1)) / h
    else (g.data i (j + 1) - g.data i (j - 1)) / (2 * h)⟩

/-- Mirrors `np.degrees`: radians to degrees, `x * 180 / π`. -/
def npDegrees (x : ℝ) : ℝ := x * (180 / Real.pi)

/-- Mirrors `np.radians`: degrees to radians, `x * π / 180`. -/
def npRadians (x : ℝ) : ℝ := x * (Real.pi / 180)

/-- `TerrainAnalyzer.calculate_slope` (terrain_analysis.py lines 69-78):
`x, y = np.gradient(dem, cell_size)`;
`slope_deg = np.degrees(np.arctan(np.sqrt(x*x + y*y)))`. -/
def calculate_slope (dem : Grid) (cell_size : ℝ) : Grid :=
  let x := npGradient0 dem cell_size
  let y := npGradient1 dem cell_size
  ⟨dem.rows, dem.cols, fun i j =>
    npDegrees (Real.arctan (Real.sqrt (x.data i j * x.data i j +
      y.data i j * y.data i j)))⟩

/-- `TerrainAnalyzer.calculate_curvature` (terrain_analysis.py lines 80-96):
`zy, zx = np.gradient(dem, cell_size)`; `zyy, _ = np.gradient(zy, cell_size)`;
`_, zxx = np.gradient(zx, cell_size)`; `curvature = zxx + zyy` (a Laplacian). -/
def calculate_curvature (dem : Grid) (cell_size : ℝ) : Grid :=
  let zy := npGradient0 dem cell_size
  let zx := npGradient1 dem cell_size
  let zyy := npGradient0 zy cell_size
  let zxx := npGradient1 zx cell_size
  ⟨dem.rows, dem.cols, fun i j => zxx.data i j + zyy.data i j⟩

/-- `TerrainAnalyzer.calculate_flow_accumulation` (terrain_analysis.py lines
98-116): a placeholder that returns `np.zeros_like(dem)`. -/
def calculate_flow_accumulation (dem : Grid) : Grid :=
  Grid.zerosLike dem

/-- The floored tangent used inside `calculate_twi`: `tan(radians(s))`, with
values below 0.001 replaced by 0.001
(`tan_slope[tan_slope < 0.001] = 0.001`). -/
def tanFloored (s : ℝ) : ℝ :=
  let t := Real.tan (npRadians s)
  if t < 0.001 then 0.001 else t

/-- `TerrainAnalyzer.calculate_twi` (terrain_analysis.py lines 118-133):
`twi = np.log(((flow_acc + 1) * cell_size) / tan_slope)` with the floored
tangent. -/
def calculate_twi (slope_deg : Grid) (flow_acc : Grid) (cell_size : ℝ) : Grid :=
  ⟨slope_deg.rows, slope_deg.cols, fun i j =>
    Real.log ((flow_acc.data i j + 1) * cell_size / tanFloored (slope_deg.data i j))⟩

/-- The slope raster as the `analyze_aoi` pipeline computes it
(app.py line 88: `analyzer.calculate_slope(dem)`, default `cell_size=1.0`). -/
def analyzeSlope (dem : Grid) : Grid := calculate_slope dem 1

/-- The curvature raster as the `analyze_aoi` pipeline computes it
(app.py line 89, default `cell_size=1.0`). -/
def analyzeCurv (dem : Grid) : Grid := calculate_curvature dem 1

/-- The flow-accumulation raster as the `analyze_aoi` pipeline computes it
(app.py line 90). -/
def analyzeFlow (dem : Grid) : Grid := calculate_flow_accumulation dem

/-- The TWI raster as the `analyze_aoi` pipeline computes it
(app.py line 91: `analyzer.calculate_twi(slope, flow)`, default
`cell_size=1.0`). -/
def analyzeTwi (dem : Grid) : Grid :=
  calculate_twi (analyzeSlope dem) (analyzeFlow dem) 1

/-- The formula the spec gives for slope, written from the words of the spec:
magnitude of the elevation gradient, taken as a slope angle (arctangent) and
converted from radians to degrees, at unit cell size. -/
def slopeSpecFormula (dem : Grid) (i j : ℕ) : ℝ :=
  (180 / Real.pi) * Real.arctan (Real.sqrt
    ((npGradient0 dem 1).data i j ^ 2 + (npGradient1 dem 1).data i j ^ 2))

/-- `SiteEvaluator.evaluate`, slope score (site_evaluation.py lines 29-32):
`slope_score = np.maximum(0, 100 - (slope * 5)); slope_score[slope > 20] = 0`.
The two steps combine pointwise into the conditional below. -/
def slopeScoreGrid (slope : Grid) : Grid :=
  ⟨slope.rows, slope.cols, fun i j =>
    if 20 < slope.data i j then 0 else max 0 (100 - slope.data i j * 5)⟩

/-- `SiteEvaluator.evaluate`, curvature score (site_evaluation.py lines 34-37):
zeros, with `min(100, |curv| * 50)` where curvature is negative. -/
def curvScoreGrid (curvature : Grid) : Grid :=
  ⟨curvature.rows, curvature.cols, fun i j =>
    if curvature.data i j < 0 then min 100 (|curvature.data i j| * 50) else 0⟩

/-- `SiteEvaluator.evaluate`, TWI score (site_evaluation.py lines 39-45):
min-max normalisation to 0-100 when the grid has spread, otherwise zeros. -/
def twiScoreGrid (twi : Grid) : Grid :=
  ⟨twi.rows, twi.cols, fun i j =>
    if twi.minVal < twi.maxVal then
      (twi.data i j - twi.minVal) / (twi.maxVal - twi.minVal) * 100
    else 0⟩

/-- The `log_flow = np.log1p(flow_acc)` grid of site_evaluation.py line 49. -/
def logFlowGrid (flow_acc : Grid) : Grid :=
  flow_acc.map (fun v => Real.log (1 + v))

/-- `SiteEvaluator.evaluate`, flow-accumulation score (site_evaluation.py
lines 47-54): min-max normalisation of `log1p(flow_acc)` when it has spread,
otherwise zeros. -/
def flowScoreGrid (flow_acc : Grid) : Grid :=
  ⟨flow_acc.rows, flow_acc.cols, fun i j =>
    if (logFlowGrid flow_acc).minVal < (logFlowGrid flow_acc).maxVal then
      ((logFlowGrid flow_acc).data i j - (logFlowGrid flow_acc).minVal) /
        ((logFlowGrid flow_acc).maxVal - (logFlowGrid flow_acc).minVal) * 100
    else 0⟩

/-- `SiteEvaluator.evaluate`, weighted sum (site_evaluation.py lines 56-61):
`total_score = 0.3*slope_score + 0.2*curv_score + 0.3*twi_score + 0.2*flow_score`. -/
def totalScoreGrid (slope curvature twi flow_acc : Grid) : Grid :=
  ⟨slope.rows, slope.cols, fun i j =>
    0.3 * (slopeScoreGrid slope).data i j +
    0.2 * (curvScoreGrid curvature).data i j +
    0.3 * (twiScoreGrid twi).data i j +
    0.2 * (flowScoreGrid flow_acc).data i j⟩

/-- The constant threshold of site_evaluation.py line 64. -/
def scoreThreshold : ℝ := 70

/-- The cells `np.where(total_score >= threshold)` yields (site_evaluation.py
lines 65-69), in row-major order, as (row, col) pairs. -/
def candidateCells (slope curvature twi flow_acc : Grid) : List (ℕ × ℕ) :=
  (List.range slope.rows).flatMap (fun r =>
    ((List.range slope.cols).filter (fun c =>
      scoreThreshold ≤ (totalScoreGrid slope curvature twi flow_acc).data r c)).map
      (fun c => (r, c)))

/-- An affine pixel-to-world transform with the six rasterio coefficients:
`x = a*col + b*row + xoff`, `y = d*col + e*row + yoff`. -/
structure Affine where
  a : ℝ
  b : ℝ
  xoff : ℝ
  d : ℝ
  e : ℝ
  yoff : ℝ

/-- `rasterio.transform.xy(transform, row, col, offset='center')`: the world
coordinates of the cell center, i.e. the transform applied to
`(col + 0.5, row + 0.5)`. -/
def transformXY (t : Affine) (row col : ℕ) : ℝ × ℝ :=
  (t.a * ((col : ℝ) + 0.5) + t.b * ((row : ℝ) + 0.5) + t.xoff,
   t.d * ((col : ℝ) + 0.5) + t.e * ((row : ℝ) + 0.5) + t.yoff)

/-- A candidate site record (site_evaluation.py lines 94-102): point
geometry, score, the four index values and the justification string. -/
structure Candidate where
  x : ℝ
  y : ℝ
  score : ℝ
  slope : ℝ
  curvature : ℝ
  twi : ℝ
  flow_acc : ℝ
  reason : String

/-- The justification string of site_evaluation.py lines 77-92.  `fmt`
abstracts the one-decimal float formatting of the Python format strings. -/
def mkReason (fmt : ℝ → String) (s t c : ℝ) : String :=
  let l1 : List String :=
    if s < 5 then ["매우 완만한 경사(" ++ fmt s ++ "도)"]
    else if s < 15 then ["적절한 경사(" ++ fmt s ++ "도)"] else []
  let l2 : List String :=
    if 10 < t then ["높은 지형습윤지수(" ++ fmt t ++ ")로 수자원 풍부"]
    else if 5 < t then ["양호한 지형습윤지수(" ++ fmt t ++ ")"] else []
  let l3 : List String := if c < -0.1 then ["오목한 지형으로 집수 유리"] else []
  let rs := l1 ++ l2 ++ l3
  if rs.isEmpty then "종합 점수 우수" else String.intercalate ", " rs

/-- The candidate record built for a qualifying cell (site_evaluation.py
lines 71-102). -/
def mkCandidate (slope curvature twi flow_acc : Grid) (t : Affine)
    (fmt : ℝ → String) (r c : ℕ) : Candidate :=
  { x := (transformXY t r c).1
    y := (transformXY t r c).2
    score := (totalScoreGrid slope curvature twi flow_acc).data r c
    slope := slope.data r c
    curvature := curvature.data r c
    twi := twi.data r c
    flow_acc := flow_acc.data r c
    reason := mkReason fmt (slope.data r c) (twi.data r c) (curvature.data r c) }

/-- `SiteEvaluator.evaluate` (site_evaluation.py lines 12-120): score the
grids, extract the qualifying cells as candidate records, return the empty
collection when none qualify, otherwise the candidates sorted by descending
score (`gdf.sort_values('score', ascending=False)`). -/
def evaluate (slope curvature twi flow_acc : Grid) (t : Affine)
    (fmt : ℝ → String) : List Candidate :=
  let cands := (candidateCells slope curvature twi flow_acc).map
    (fun rc => mkCandidate slope curvature twi flow_acc t fmt rc.1 rc.2)
  if cands.isEmpty then []
  else cands.mergeSort (fun p q => decide (q.score ≤ p.score))

/-- A north-up raster dataset, as `rasterio.transform.from_origin` produces
(the dummy DEM of main.py lines 9-43 and the DEM app.py opens): origin at the
north-west corner `(x0, y0)`, positive pixel sizes `px`, `py`, `rows × cols`
cells. -/
structure NorthUpRaster where
  rows : ℕ
  cols : ℕ
  data : ℕ → ℕ → ℝ
  x0 : ℝ
  y0 : ℝ
  px : ℝ
  py : ℝ

/-- The world-coordinate extent of a north-up raster. -/
structure BBox where
  xmin : ℝ
  xmax : ℝ
  ymin : ℝ
  ymax : ℝ

/-- The extent rectangle covered by a north-up raster. -/
def rasterExtent (r : NorthUpRaster) : BBox :=
  ⟨r.x0, r.x0 + (r.cols : ℝ) * r.px, r.y0 - (r.rows : ℝ) * r.py, r.y0⟩

/-- Whether a world point lies inside the raster extent. -/
def inExtent (r : NorthUpRaster) (x y : ℝ) : Prop :=
  r.x0 ≤ x ∧ x ≤ r.x0 + (r.cols : ℝ) * r.px ∧
  r.y0 - (r.rows : ℝ) * r.py ≤ y ∧ y ≤ r.y0

/-- `src.index(x, y)` (rasterio `rowcol`, default `op=math.floor`) on a
north-up raster: the floored fractional row and column of the point.  Indices
are signed and are NOT clamped to the raster. -/
def srcIndex (r : NorthUpRaster) (x y : ℝ) : ℤ × ℤ :=
  (⌊(r.y0 - y) / r.py⌋, ⌊(x - r.x0) / r.px⌋)

/-- numpy 2D integer indexing `arr[row, col]` on a `rows × cols` array:
negative indices down to `-rows` (resp. `-cols`) wrap around to the far end;
anything else raises `IndexError`, modelled as `none`. -/
def npIndex2D (rows cols : ℕ) (data : ℕ → ℕ → ℝ) (row col : ℤ) : Option ℝ :=
  if -(rows : ℤ) ≤ row ∧ row < (rows : ℤ) ∧ -(cols : ℤ) ≤ col ∧ col < (cols : ℤ) then
    some (data (if row < 0 then row + rows else row).toNat
               (if col < 0 then col + cols else col).toNat)
  else none

/-- The body a query response can take: an elevation reading or an error
message. -/
inductive QueryResult where
  | elevation (v : ℝ) : QueryResult
  | err (msg : String) : QueryResult
deriving DecidableEq

/-- `get_terrain_value` of app.py lines 15-48 with the DEM file present:
convert the world coordinates to pixel indices with `src.index`, read the
array there, and surface `IndexError` as the generic message
"Coordinate out of bounds". -/
def get_terrain_value (r : NorthUpRaster) (x y : ℝ) : QueryResult :=
  match npIndex2D r.rows r.cols r.data (srcIndex r x y).1 (srcIndex r x y).2 with
  | some elev => QueryResult.elevation elev
  | none => QueryResult.err "Coordinate out of bounds"

/-- Whether two closed rectangles overlap. -/
def bboxIntersects (g e : BBox) : Prop :=
  g.xmin ≤ e.xmax ∧ e.xmin ≤ g.xmax ∧ g.ymin ≤ e.ymax ∧ e.ymin ≤ g.ymax

instance (g e : BBox) : Decidable (bboxIntersects g e) :=
  inferInstanceAs (Decidable (_ ≤ _ ∧ _ ≤ _ ∧ _ ≤ _ ∧ _ ≤ _))

/-- First row of the crop window of a geometry bbox on a north-up raster. -/
def cropRow0 (r : NorthUpRaster) (g : BBox) : ℕ :=
  min r.rows ⌊(r.y0 - g.ymax) / r.py⌋.toNat

/-- One past the last row of the crop window. -/
def cropRow1 (r : NorthUpRaster) (g : BBox) : ℕ :=
  min r.rows ⌈(r.y0 - g.ymin) / r.py⌉.toNat

/-- First column of the crop window. -/
def cropCol0 (r : NorthUpRaster) (g : BBox) : ℕ :=
  min r.cols ⌊(g.xmin - r.x0) / r.px⌋.toNat

/-- One past the last column of the crop window. -/
def cropCol1 (r : NorthUpRaster) (g : BBox) : ℕ :=
  min r.cols ⌈(g.xmax - r.x0) / r.px⌉.toNat

/-- Modelled from the spec: the masked-and-cropped band that
`rasterio.mask.mask(src, shapes, crop=True)` returns (the library call of
terrain_analysis.py line 51, whose code is not in this repository): the
raster restricted to the crop window of the geometry bounding box, with
cells whose center falls outside the geometry set to the nodata value 0. -/
def maskCropGrid (r : NorthUpRaster) (g : BBox) : Grid :=
  ⟨cropRow1 r g - cropRow0 r g, cropCol1 r g - cropCol0 r g, fun i j =>
    let cx := r.x0 + ((cropCol0 r g + j : ℕ) + 0.5 : ℝ) * r.px
    let cy := r.y0 - ((cropRow0 r g + i : ℕ) + 0.5 : ℝ) * r.py
    if g.xmin ≤ cx ∧ cx ≤ g.xmax ∧ g.ymin ≤ cy ∧ cy ≤ g.ymax then
      r.data (cropRow0 r g + i) (cropCol0 r g + j)
    else 0⟩

/-- Modelled from the spec: the recomputed affine transform of the cropped
window (returned by the same `rasterio.mask.mask` call): the same pixel
sizes, with the origin moved to the window's north-west corner. -/
def cropTransform (r : NorthUpRaster) (g : BBox) : Affine :=
  ⟨r.px, 0, r.x0 + (cropCol0 r g : ℝ) * r.px,
   0, -r.py, r.y0 - (cropRow0 r g : ℝ) * r.py⟩

/-- Modelled from the spec: `rasterio.mask.mask(src, shapes, crop=True)`
raises (ValueError, "Input shapes do not overlap raster") when the geometry
does not intersect the raster extent, and otherwise returns the
masked-and-cropped band with its recomputed transform. -/
def rasterioMask (r : NorthUpRaster) (g : BBox) : Except String (Grid × Affine) :=
  if bboxIntersects g (rasterExtent r) then
    Except.ok (maskCropGrid r g, cropTransform r g)
  else Except.error "Input shapes do not overlap raster."

/-- `TerrainAnalyzer._clip_dem` (terrain_analysis.py lines 45-67): open the
DEM, call `rasterio.mask.mask(src, shapes, crop=True)` and return the first
band and the new transform; any error of the mask call propagates out of the
method. -/
def clip_dem (r : NorthUpRaster) (g : BBox) : Except String (Grid × Affine) :=
  rasterioMask r g

/-! Helper lemmas about grid minima and maxima. -/

lemma foldl_min_le_init (xs : List ℝ) (x : ℝ) : xs.foldl min x ≤ x := by
  induction xs generalizing x with
  | nil => exact le_refl x
  | cons y ys ih => exact le_trans (ih (min x y)) (min_le_left x y)

lemma init_le_foldl_max (xs : List ℝ) (x : ℝ) : x ≤ xs.foldl max x := by
  induction xs generalizing x with
  | nil => exact le_refl x
  | cons y ys ih => exact le_trans (le_max_left x y) (ih (max x y))

lemma foldl_min_le (xs : List ℝ) (x a : ℝ) (h : a ∈ x :: xs) :
    xs.foldl min x ≤ a := by
  induction xs generalizing x with
  | nil =>
    rcases List.mem_cons.mp h with rfl | h2
    · exact le_refl a
    · cases h2
  | cons y ys ih =>
    rcases List.mem_cons.mp h with rfl | h2
    · exact le_trans (foldl_min_le_init ys (min a y)) (min_le_left a y)
    · rcases List.mem_cons.mp h2 with rfl | h3
      · exact le_trans (foldl_min_le_init ys (min x a)) (min_le_right x a)
      · exact ih (min x y) (List.mem_cons_of_mem _ h3)

lemma le_foldl_max (xs : List ℝ) (x a : ℝ) (h : a ∈ x :: xs) :
    a ≤ xs.foldl max x := by
  induction xs generalizing x with
  | nil =>
    rcases List.mem_cons.mp h with rfl | h2
    · exact le_refl a
    · cases h2
  | cons y ys ih =>
    rcases List.mem_cons.mp h with rfl | h2
    · exact le_trans (le_max_left a y) (init_le_foldl_max ys (max a y))
    · rcases List.mem_cons.mp h2 with rfl | h3
      · exact le_trans (le_max_right x a) (init_le_foldl_max ys (max x a))
      · exact ih (max x y) (List.mem_cons_of_mem _ h3)

lemma foldl_min_const {v : ℝ} (xs : List ℝ) (x : ℝ)
    (h : ∀ b ∈ x :: xs, b = v) : xs.foldl min x = v := by
  induction xs generalizing x with
  | nil => exact h x (List.mem_singleton_self x)
  | cons y ys ih =>
    have hx : x = v := h x (List.mem_cons_self x (y :: ys))
    have hy : y = v := h y (List.mem_cons_of_mem _ (List.mem_cons_self y ys))
    refine ih (min x y) ?_
    intro b hb
    rcases List.mem_cons.mp hb with rfl | h3
    · rw [hx, hy, min_self]
    · exact h b (List.mem_cons_of_mem _ (List.mem_cons_of_mem _ h3))

lemma foldl_max_const {v : ℝ} (xs : List ℝ) (x : ℝ)
    (h : ∀ b ∈ x :: xs, b = v) : xs.foldl max x = v := by
  induction xs generalizing x with
  | nil => exact h x (List.mem_singleton_self x)
  | cons y ys ih =>
    have hx : x = v := h x (List.mem_cons_self x (y :: ys))
    have hy : y = v := h y (List.mem_cons_of_mem _ (List.mem_cons_self y ys))
    refine ih (max x y) ?_
    intro b hb
    rcases List.mem_cons.mp hb with rfl | h3
    · rw [hx, hy, max_self]
    · exact h b (List.mem_cons_of_mem _ (List.mem_cons_of_mem _ h3))

lemma Grid.data_mem_cellList (g : Grid) {i j : ℕ} (hi : i < g.rows)
    (hj : j < g.cols) : g.data i j ∈ g.cellList := by
  unfold Grid.cellList
  rw [List.mem_flatMap]
  exact ⟨i, List.mem_range.mpr hi, List.mem_map.mpr ⟨j, List.mem_range.mpr hj, rfl⟩⟩

lemma Grid.mem_cellList_elim (g : Grid) {a : ℝ} (h : a ∈ g.cellList) :
    ∃ i j, i < g.rows ∧ j < g.cols ∧ a = g.data i j := by
  unfold Grid.cellList at h
  rw [List.mem_flatMap] at h
  obtain ⟨i, hi, hmem⟩ := h
  obtain ⟨j, hj, hval⟩ := List.mem_map.mp hmem
  exact ⟨i, j, List.mem_range.mp hi, List.mem_range.mp hj, hval.symm⟩

lemma Grid.minVal_le (g : Grid) {i j : ℕ} (hi : i < g.rows) (hj : j < g.cols) :
    g.minVal ≤ g.data i j := by
  have hm := g.data_mem_cellList hi hj
  unfold Grid.minVal
  cases hc : g.cellList with
  | nil => rw [hc] at hm; cases hm
  | cons x xs =>
    rw [hc] at hm
    exact foldl_min_le xs x _ hm

lemma Grid.le_maxVal (g : Grid) {i j : ℕ} (hi : i < g.rows) (hj : j < g.cols) :
    g.data i j ≤ g.maxVal := by
  have hm := g.data_mem_cellList hi hj
  unfold Grid.maxVal
  cases hc : g.cellList with
  | nil => rw [hc] at hm; cases hm
  | cons x xs =>
    rw [hc] at hm
    exact le_foldl_max xs x _ hm

lemma Grid.minVal_eq_maxVal_of_const (g : Grid) {v : ℝ}
    (h : ∀ i j, i < g.rows → j < g.cols → g.data i j = v) :
    g.minVal = g.maxVal := by
  unfold Grid.minVal Grid.maxVal
  cases hc : g.cellList with
  | nil => rfl
  | cons x xs =>
    have hall : ∀ b ∈ x :: xs, b = v := by
      intro b hb
      rw [← hc] at hb
      obtain ⟨i, j, hi, hj, hval⟩ := g.mem_cellList_elim hb
      rw [hval]
      exact h i j hi hj
    show xs.foldl min x = xs.foldl max x
    rw [foldl_min_const xs x hall, foldl_max_const xs x hall]

/-- Membership in the extracted candidate cells is exactly: the cell is in
bounds and its total score reaches the threshold. -/
lemma mem_candidateCells_iff (slope curvature twi flow_acc : Grid) (i j : ℕ) :
    (i, j) ∈ candidateCells slope curvature twi flow_acc ↔
      i < slope.rows ∧ j < slope.cols ∧
        scoreThreshold ≤ (totalScoreGrid slope curvature twi flow_acc).data i j := by
  unfold candidateCells
  rw [List.mem_flatMap]
  constructor
  · rintro ⟨r, hr, hmem⟩
    obtain ⟨c, hc, heq⟩ := List.mem_map.mp hmem
    obtain ⟨hcr, hcs⟩ := List.mem_filter.mp hc
    obtain ⟨rfl, rfl⟩ := Prod.mk.injEq .. ▸ heq
    exact ⟨List.mem_range.mp hr, List.mem_range.mp hcr, of_decide_eq_true hcs⟩
  · rintro ⟨hi, hj, hs⟩
    refine ⟨i, List.mem_range.mpr hi, List.mem_map.mpr ⟨j, ?_, rfl⟩⟩
    exact List.mem_filter.mpr ⟨List.mem_range.mpr hj, decide_eq_true hs⟩

/-- The slope score lies in [0, 100] wherever the slope value is
non-negative. -/
lemma slopeScore_bounds (slope : Grid) (i j : ℕ) (hs : 0 ≤ slope.data i j) :
    0 ≤ (slopeScoreGrid slope).data i j ∧ (slopeScoreGrid slope).data i j ≤ 100 := by
  show 0 ≤ (if 20 < slope.data i j then 0 else max 0 (100 - slope.data i j * 5)) ∧
    (if 20 < slope.data i j then 0 else max 0 (100 - slope.data i j * 5)) ≤ 100
  split_ifs with h
  · exact ⟨le_refl 0, by norm_num⟩
  · refine ⟨le_max_left 0 _, max_le (by norm_num) ?_⟩
    nlinarith

/-- The curvature score always lies in [0, 100]. -/
lemma curvScore_bounds (curvature : Grid) (i j : ℕ) :
    0 ≤ (curvScoreGrid curvature).data i j ∧
      (curvScoreGrid curvature).data i j ≤ 100 := by
  show 0 ≤ (if curvature.data i j < 0 then
      min 100 (|curvature.data i j| * 50) else 0) ∧
    (if curvature.data i j < 0 then
      min 100 (|curvature.data i j| * 50) else 0) ≤ 100
  split_ifs with h
  · exact ⟨le_min (by norm_num) (by positivity), min_le_left _ _⟩
  · exact ⟨le_refl 0, by norm_num⟩

/-- The TWI score lies in [0, 100] at every in-bounds cell. -/
lemma twiScore_bounds (twi : Grid) (i j : ℕ) (hi : i < twi.rows)
    (hj : j < twi.cols) :
    0 ≤ (twiScoreGrid twi).data i j ∧ (twiScoreGrid twi).data i j ≤ 100 := by
  show 0 ≤ (if twi.minVal < twi.maxVal then
      (twi.data i j - twi.minVal) / (twi.maxVal - twi.minVal) * 100 else 0) ∧
    (if twi.minVal < twi.maxVal then
      (twi.data i j - twi.minVal) / (twi.maxVal - twi.minVal) * 100 else 0) ≤ 100
  split_ifs with h
  · have h1 := twi.minVal_le hi hj
    have h2 := twi.le_maxVal hi hj
    have hp : 0 < twi.maxVal - twi.minVal := sub_pos.mpr h
    constructor
    · exact mul_nonneg (div_nonneg (by linarith) hp.le) (by norm_num)
    · have hq : (twi.data i j - twi.minVal) / (twi.maxVal - twi.minVal) ≤ 1 :=
        (div_le_one hp).mpr (by linarith)
      calc (twi.data i j - twi.minVal) / (twi.maxVal - twi.minVal) * 100
          ≤ 1 * 100 := mul_le_mul_of_nonneg_right hq (by norm_num)
        _ = 100 := one_mul 100
  · exact ⟨le_refl 0, by norm_num⟩

/-- The flow-accumulation score lies in [0, 100] at every in-bounds cell. -/
lemma flowScore_bounds (flow_acc : Grid) (i j : ℕ) (hi : i < flow_acc.rows)
    (hj : j < flow_acc.cols) :
    0 ≤ (flowScoreGrid flow_acc).data i j ∧
      (flowScoreGrid flow_acc).data i j ≤ 100 := by
  show 0 ≤ (if (logFlowGrid flow_acc).minVal < (logFlowGrid flow_acc).maxVal then
      ((logFlowGrid flow_acc).data i j - (logFlowGrid flow_acc).minVal) /
        ((logFlowGrid flow_acc).maxVal - (logFlowGrid flow_acc).minVal) * 100
    else 0) ∧
    (if (logFlowGrid flow_acc).minVal < (logFlowGrid flow_acc).maxVal then
      ((logFlowGrid flow_acc).data i j - (logFlowGrid flow_acc).minVal) /
        ((logFlowGrid flow_acc).maxVal - (logFlowGrid flow_acc).minVal) * 100
    else 0) ≤ 100
  split_ifs with h
  · have hi2 : i < (logFlowGrid flow_acc).rows := hi
    have hj2 : j < (logFlowGrid flow_acc).cols := hj
    have h1 := (logFlowGrid flow_acc).minVal_le hi2 hj2
    have h2 := (logFlowGrid flow_acc).le_maxVal hi2 hj2
    have hp : 0 < (logFlowGrid flow_acc).maxVal - (logFlowGrid flow_acc).minVal :=
      sub_pos.mpr h
    constructor
    · exact mul_nonneg (div_nonneg (by linarith) hp.le) (by norm_num)
    · have hq : ((logFlowGrid flow_acc).data i j - (logFlowGrid flow_acc).minVal) /
          ((logFlowGrid flow_acc).maxVal - (logFlowGrid flow_acc).minVal) ≤ 1 :=
        (div_le_one hp).mpr (by linarith)
      calc ((logFlowGrid flow_acc).data i j - (logFlowGrid flow_acc).minVal) /
            ((logFlowGrid flow_acc).maxVal - (logFlowGrid flow_acc).minVal) * 100
          ≤ 1 * 100 := mul_le_mul_of_nonneg_right hq (by norm_num)
        _ = 100 := one_mul 100
  · exact ⟨le_refl 0, by norm_num⟩

/-- The flow score collapses to the all-zeros branch whenever the
flow-accumulation grid is all zeros. -/
lemma flowScore_zero_of_all_zero (flow_acc : Grid)
    (h : ∀ i j, i < flow_acc.rows → j < flow_acc.cols → flow_acc.data i j = 0) :
    ∀ i j, (flowScoreGrid flow_acc).data i j = 0 := by
  intro i j
  have hc : (logFlowGrid flow_acc).minVal = (logFlowGrid flow_acc).maxVal := by
    refine (logFlowGrid flow_acc).minVal_eq_maxVal_of_const
      (v := Real.log (1 + 0)) ?_
    intro a b ha hb
    show Real.log (1 + flow_acc.data a b) = Real.log (1 + 0)
    rw [h a b ha hb]
  show (if (logFlowGrid flow_acc).minVal < (logFlowGrid flow_acc).maxVal then
      ((logFlowGrid flow_acc).data i j - (logFlowGrid flow_acc).minVal) /
        ((logFlowGrid flow_acc).maxVal - (logFlowGrid flow_acc).minVal) * 100
    else 0) = 0
  rw [if_neg]
  rw [hc]
  exact lt_irrefl _

/-! The claims. -/

/-- C1: for every input DEM array, `calculate_flow_accumulation` returns a
grid of the same shape whose every cell equals zero. -/
theorem flow_accumulation_all_zero (dem : Grid) :
    (calculate_flow_accumulation dem).rows = dem.rows ∧
    (calculate_flow_accumulation dem).cols = dem.cols ∧
    ∀ i j, (calculate_flow_accumulation dem).data i j = 0 :=
  ⟨rfl, rfl, fun _ _ => rfl⟩

/-- C5: `calculate_slope` computes the per-cell slope as the arctangent of
the magnitude of the elevation gradient converted from radians to degrees,
and the pipeline invokes it with the fixed default cell size 1.0
(`analyzer.calculate_slope(dem)` in app.py and main.py). -/
theorem slope_formula (dem : Grid) (i j : ℕ) :
    analyzeSlope dem = calculate_slope dem 1 ∧
    (calculate_slope dem 1).data i j = slopeSpecFormula dem i j := by
  refine ⟨rfl, ?_⟩
  show npDegrees (Real.arctan (Real.sqrt
      ((npGradient0 dem 1).data i j * (npGradient0 dem 1).data i j +
        (npGradient1 dem 1).data i j * (npGradient1 dem 1).data i j))) = _
  unfold slopeSpecFormula npDegrees
  rw [show (npGradient0 dem 1).data i j * (npGradient0 dem 1).data i j +
        (npGradient1 dem 1).data i j * (npGradient1 dem 1).data i j =
      (npGradient0 dem 1).data i j ^ 2 + (npGradient1 dem 1).data i j ^ 2 by ring]
  exact mul_comm _ _

/-- C7: each derived index grid (slope, curvature, flow accumulation, TWI,
the latter computed from the derived slope and flow grids as both pipelines
do) has exactly the shape of the input DEM, for any cell size. -/
theorem index_grids_shape (dem : Grid) (cs : ℝ) :
    ((calculate_slope dem cs).rows = dem.rows ∧
      (calculate_slope dem cs).cols = dem.cols) ∧
    ((calculate_curvature dem cs).rows = dem.rows ∧
      (calculate_curvature dem cs).cols = dem.cols) ∧
    ((calculate_flow_accumulation dem).rows = dem.rows ∧
      (calculate_flow_accumulation dem).cols = dem.cols) ∧
    ((calculate_twi (calculate_slope dem cs) (calculate_flow_accumulation dem) cs).rows
        = dem.rows ∧
      (calculate_twi (calculate_slope dem cs) (calculate_flow_accumulation dem) cs).cols
        = dem.cols) :=
  ⟨⟨rfl, rfl⟩, ⟨rfl, rfl⟩, ⟨rfl, rfl⟩, ⟨rfl, rfl⟩⟩

/-- C2: the total suitability score is the fixed weighted sum
0.3/0.2/0.3/0.2 of the four index scores, and a cell yields a candidate
point exactly when that total reaches the constant threshold 70. -/
theorem total_score_and_threshold (slope curvature twi flow_acc : Grid)
    (i j : ℕ) :
    (totalScoreGrid slope curvature twi flow_acc).data i j =
      0.3 * (slopeScoreGrid slope).data i j +
      0.2 * (curvScoreGrid curvature).data i j +
      0.3 * (twiScoreGrid twi).data i j +
      0.2 * (flowScoreGrid flow_acc).data i j ∧
    ((i, j) ∈ candidateCells slope curvature twi flow_acc ↔
      i < slope.rows ∧ j < slope.cols ∧
        (70 : ℝ) ≤ (totalScoreGrid slope curvature twi flow_acc).data i j) := by
  refine ⟨rfl, ?_⟩
  rw [mem_candidateCells_iff]
  unfold scoreThreshold
  exact Iff.rfl

/-- C3: with finite inputs and non-negative slope values, every per-index
score and the weighted total computed by `SiteEvaluator.evaluate` lie in
[0, 100] at each cell of the index grids. -/
theorem scores_in_range (slope curvature twi flow_acc : Grid) (i j : ℕ)
    (hi : i < slope.rows) (hj : j < slope.cols)
    (hti : i < twi.rows) (htj : j < twi.cols)
    (hfi : i < flow_acc.rows) (hfj : j < flow_acc.cols)
    (hs : 0 ≤ slope.data i j) :
    (0 ≤ (slopeScoreGrid slope).data i j ∧
      (slopeScoreGrid slope).data i j ≤ 100) ∧
    (0 ≤ (curvScoreGrid curvature).data i j ∧
      (curvScoreGrid curvature).data i j ≤ 100) ∧
    (0 ≤ (twiScoreGrid twi).data i j ∧ (twiScoreGrid twi).data i j ≤ 100) ∧
    (0 ≤ (flowScoreGrid flow_acc).data i j ∧
      (flowScoreGrid flow_acc).data i j ≤ 100) ∧
    (0 ≤ (totalScoreGrid slope curvature twi flow_acc).data i j ∧
      (totalScoreGrid slope curvature twi flow_acc).data i j ≤ 100) := by
  obtain ⟨h1a, h1b⟩ := slopeScore_bounds slope i j hs
  obtain ⟨h2a, h2b⟩ := curvScore_bounds curvature i j
  obtain ⟨h3a, h3b⟩ := twiScore_bounds twi i j hti htj
  obtain ⟨h4a, h4b⟩ := flowScore_bounds flow_acc i j hfi hfj
  refine ⟨⟨h1a, h1b⟩, ⟨h2a, h2b⟩, ⟨h3a, h3b⟩, ⟨h4a, h4b⟩, ?_, ?_⟩
  · show 0 ≤ 0.3 * (slopeScoreGrid slope).data i j +
      0.2 * (curvScoreGrid curvature).data i j +
      0.3 * (twiScoreGrid twi).data i j +
      0.2 * (flowScoreGrid flow_acc).data i j
    linarith
  · show 0.3 * (slopeScoreGrid slope).data i j +
      0.2 * (curvScoreGrid curvature).data i j +
      0.3 * (twiScoreGrid twi).data i j +
      0.2 * (flowScoreGrid flow_acc).data i j ≤ 100
    linarith

/-- Witness for C3: concrete 1-by-1 index grids with slope 0, curvature -1,
TWI 3 and flow accumulation 2; the total score at the only cell lies in
[0, 100]. -/
theorem scores_in_range_witness :
    0 ≤ (totalScoreGrid (Grid.mk 1 1 fun _ _ => 0) (Grid.mk 1 1 fun _ _ => -1)
        (Grid.mk 1 1 fun _ _ => 3) (Grid.mk 1 1 fun _ _ => 2)).data 0 0 ∧
    (totalScoreGrid (Grid.mk 1 1 fun _ _ => 0) (Grid.mk 1 1 fun _ _ => -1)
        (Grid.mk 1 1 fun _ _ => 3) (Grid.mk 1 1 fun _ _ => 2)).data 0 0 ≤ 100 :=
  (scores_in_range (Grid.mk 1 1 fun _ _ => 0) (Grid.mk 1 1 fun _ _ => -1)
    (Grid.mk 1 1 fun _ _ => 3) (Grid.mk 1 1 fun _ _ => 2) 0 0
    (by norm_num) (by norm_num) (by norm_num) (by norm_num)
    (by norm_num) (by norm_num) (le_refl 0)).2.2.2.2

/-- C4: in the pipeline the flow-accumulation grid is all zeros, so its
score is zero at every cell, the total score never exceeds 80, and a
qualifying cell reaches at least 70 of that effective 80. -/
theorem pipeline_effective_max (dem : Grid) (i j : ℕ)
    (hi : i < dem.rows) (hj : j < dem.cols) :
    (flowScoreGrid (analyzeFlow dem)).data i j = 0 ∧
    (totalScoreGrid (analyzeSlope dem) (analyzeCurv dem) (analyzeTwi dem)
        (analyzeFlow dem)).data i j ≤ 80 ∧
    ((i, j) ∈ candidateCells (analyzeSlope dem) (analyzeCurv dem)
        (analyzeTwi dem) (analyzeFlow dem) →
      70 ≤ (totalScoreGrid (analyzeSlope dem) (analyzeCurv dem) (analyzeTwi dem)
          (analyzeFlow dem)).data i j ∧
      (totalScoreGrid (analyzeSlope dem) (analyzeCurv dem) (analyzeTwi dem)
          (analyzeFlow dem)).data i j ≤ 80) := by
  have hf0 : ∀ a b, (flowScoreGrid (analyzeFlow dem)).data a b = 0 :=
    flowScore_zero_of_all_zero _ (fun _ _ _ _ => rfl)
  have hsl : 0 ≤ (analyzeSlope dem).data i j := by
    show 0 ≤ npDegrees (Real.arctan (Real.sqrt
      ((npGradient0 dem 1).data i j * (npGradient0 dem 1).data i j +
        (npGradient1 dem 1).data i j * (npGradient1 dem 1).data i j)))
    unfold npDegrees
    refine mul_nonneg ?_ (div_nonneg (by norm_num) Real.pi_pos.le)
    have h := Real.arctan_strictMono.monotone (Real.sqrt_nonneg
      ((npGradient0 dem 1).data i j * (npGradient0 dem 1).data i j +
        (npGradient1 dem 1).data i j * (npGradient1 dem 1).data i j))
    rwa [Real.arctan_zero] at h
  obtain ⟨h1a, h1b⟩ := slopeScore_bounds (analyzeSlope dem) i j hsl
  obtain ⟨h2a, h2b⟩ := curvScore_bounds (analyzeCurv dem) i j
  obtain ⟨h3a, h3b⟩ := twiScore_bounds (analyzeTwi dem) i j hi hj
  have htot : (totalScoreGrid (analyzeSlope dem) (analyzeCurv dem) (analyzeTwi dem)
      (analyzeFlow dem)).data i j ≤ 80 := by
    show 0.3 * (slopeScoreGrid (analyzeSlope dem)).data i j +
      0.2 * (curvScoreGrid (analyzeCurv dem)).data i j +
      0.3 * (twiScoreGrid (analyzeTwi dem)).data i j +
      0.2 * (flowScoreGrid (analyzeFlow dem)).data i j ≤ 80
    rw [hf0 i j]
    linarith
  refine ⟨hf0 i j, htot, ?_⟩
  intro hmem
  obtain ⟨_, _, hth⟩ := (mem_candidateCells_iff _ _ _ _ i j).mp hmem
  exact ⟨hth, htot⟩

/-- Witness for C4: on a concrete 1-by-1 DEM the flow score at the only cell
is zero and the total score is at most 80. -/
theorem pipeline_effective_max_witness :
    (flowScoreGrid (analyzeFlow (Grid.mk 1 1 fun _ _ => 0))).data 0 0 = 0 ∧
    (totalScoreGrid (analyzeSlope (Grid.mk 1 1 fun _ _ => 0))
        (analyzeCurv (Grid.mk 1 1 fun _ _ => 0))
        (analyzeTwi (Grid.mk 1 1 fun _ _ => 0))
        (analyzeFlow (Grid.mk 1 1 fun _ _ => 0))).data 0 0 ≤ 80 :=
  ⟨(pipeline_effective_max (Grid.mk 1 1 fun _ _ => 0) 0 0
      (by norm_num) (by norm_num)).1,
   (pipeline_effective_max (Grid.mk 1 1 fun _ _ => 0) 0 0
      (by norm_num) (by norm_num)).2.1⟩

/-- C6: the tangent inside `calculate_twi` is floored at 0.001 (hence never
zero), and for non-negative slope and flow values and positive cell size the
TWI cell is the natural log of a strictly positive quantity, hence a
well-defined real number. -/
theorem twi_floored_tangent (slope_deg flow_acc : Grid) (cs : ℝ) (i j : ℕ)
    (hs : 0 ≤ slope_deg.data i j) (hf : 0 ≤ flow_acc.data i j) (hcs : 0 < cs) :
    0.001 ≤ tanFloored (slope_deg.data i j) ∧
    tanFloored (slope_deg.data i j) ≠ 0 ∧
    (calculate_twi slope_deg flow_acc cs).data i j =
      Real.log ((flow_acc.data i j + 1) * cs / tanFloored (slope_deg.data i j)) ∧
    0 < (flow_acc.data i j + 1) * cs / tanFloored (slope_deg.data i j) := by
  have h1 : (0.001 : ℝ) ≤ tanFloored (slope_deg.data i j) := by
    show (0.001 : ℝ) ≤ if Real.tan (npRadians (slope_deg.data i j)) < 0.001 then
      (0.001 : ℝ) else Real.tan (npRadians (slope_deg.data i j))
    split_ifs with h
    · exact le_refl _
    · exact le_of_not_lt h
  have h2 : tanFloored (slope_deg.data i j) ≠ 0 := by
    intro h0
    rw [h0] at h1
    norm_num at h1
  refine ⟨h1, h2, rfl, ?_⟩
  exact div_pos (mul_pos (by linarith) hcs) (by linarith)

/-- Witness for C6: on concrete 1-by-1 zero grids with cell size 1 the
floored tangent is at least 0.001 and the log argument is positive. -/
theorem twi_floored_tangent_witness :
    0.001 ≤ tanFloored ((Grid.mk 1 1 fun _ _ => 0).data 0 0) ∧
    0 < (((Grid.mk 1 1 fun _ _ => 0).data 0 0) + 1) * 1 /
      tanFloored ((Grid.mk 1 1 fun _ _ => 0).data 0 0) :=
  ⟨(twi_floored_tangent (Grid.mk 1 1 fun _ _ => 0) (Grid.mk 1 1 fun _ _ => 0)
      1 0 0 (le_refl 0) (le_refl 0) one_pos).1,
   (twi_floored_tangent (Grid.mk 1 1 fun _ _ => 0) (Grid.mk 1 1 fun _ _ => 0)
      1 0 0 (le_refl 0) (le_refl 0) one_pos).2.2.2⟩

/-- C9: clipping the DEM errors exactly when the geometry does not intersect
the raster extent, and otherwise returns the masked band cropped to the
bounding box together with the recomputed affine transform. -/
theorem clip_dem_fails_iff (r : NorthUpRaster) (g : BBox) :
    (¬ bboxIntersects g (rasterExtent r) →
      clip_dem r g = Except.error "Input shapes do not overlap raster.") ∧
    (bboxIntersects g (rasterExtent r) →
      clip_dem r g = Except.ok (maskCropGrid r g, cropTransform r g)) := by
  constructor
  · intro h
    unfold clip_dem rasterioMask
    rw [if_neg h]
  · intro h
    unfold clip_dem rasterioMask
    rw [if_pos h]

/-- Witness for C9: a concrete 2-by-2 raster with extent [0,2]x[0,2] and a
geometry box [10,11]x[10,11] that misses it; clipping errors. -/
theorem clip_dem_fails_iff_witness :
    clip_dem (NorthUpRaster.mk 2 2 (fun _ _ => 5) 0 2 1 1)
        (BBox.mk 10 11 10 11) =
      Except.error "Input shapes do not overlap raster." :=
  (clip_dem_fails_iff (NorthUpRaster.mk 2 2 (fun _ _ => 5) 0 2 1 1)
    (BBox.mk 10 11 10 11)).1 (by norm_num [bboxIntersects, rasterExtent])

/-- The dummy DEM raster geometry of main.py lines 9-43 (origin 126 E, 38 N,
0.001-degree pixels, 4000 x 4000 cells), with synthetic cell values
`i + j` standing in for the generated elevations. -/
def demoDEM : NorthUpRaster :=
  ⟨4000, 4000, fun i j => (i : ℝ) + (j : ℝ), 126, 38, 0.001, 0.001⟩

/-- C10 fails on the code: the point (126.5, 38.0005) lies north of the
raster extent, yet `get_terrain_value` returns an elevation rather than an
error, because `src.index` yields row -1 and numpy wraps the negative index
to the last row (3999), reading cell (3999, 500) = 4499. -/
theorem query_out_of_bounds_code_bug :
    ¬ inExtent demoDEM 126.5 38.0005 ∧
    get_terrain_value demoDEM 126.5 38.0005 = QueryResult.elevation 4499 := by
  constructor
  · norm_num [inExtent, demoDEM]
  · have hrow : (⌊(demoDEM.y0 - 38.0005) / demoDEM.py⌋ : ℤ) = -1 := by
      norm_num [demoDEM]
    have hcol : (⌊((126.5 : ℝ) - demoDEM.x0) / demoDEM.px⌋ : ℤ) = 500 := by
      norm_num [demoDEM]
    unfold get_terrain_value srcIndex npIndex2D
    rw [hrow, hcol]
    norm_num [demoDEM]
    rw [show (3999 : ℤ).toNat = (3999 : ℕ) from rfl,
      show (500 : ℤ).toNat = (500 : ℕ) from rfl]
    norm_num

/-- C8: a non-empty `evaluate` result is a permutation of the qualifying
cells' candidate records, sorted descending by score, and each candidate
carries the world coordinate of its cell center together with the score, the
four index values and the generated justification string. -/
theorem evaluate_sorted_candidates (slope curvature twi flow_acc : Grid)
    (t : Affine) (fmt : ℝ → String)
    (hne : evaluate slope curvature twi flow_acc t fmt ≠ []) :
    List.Sorted (fun p q : Candidate => q.score ≤ p.score)
      (evaluate slope curvature twi flow_acc t fmt) ∧
    (evaluate slope curvature twi flow_acc t fmt).Perm
      ((candidateCells slope curvature twi flow_acc).map
        (fun rc => mkCandidate slope curvature twi flow_acc t fmt rc.1 rc.2)) ∧
    ∀ p ∈ evaluate slope curvature twi flow_acc t fmt, ∃ r c,
      (r, c) ∈ candidateCells slope curvature twi flow_acc ∧
      p = mkCandidate slope curvature twi flow_acc t fmt r c ∧
      p.x = t.a * ((c : ℝ) + 0.5) + t.b * ((r : ℝ) + 0.5) + t.xoff ∧
      p.y = t.d * ((c : ℝ) + 0.5) + t.e * ((r : ℝ) + 0.5) + t.yoff ∧
      p.score = (totalScoreGrid slope curvature twi flow_acc).data r c ∧
      p.slope = slope.data r c ∧
      p.curvature = curvature.data r c ∧
      p.twi = twi.data r c ∧
      p.flow_acc = flow_acc.data r c ∧
      p.reason = mkReason fmt (slope.data r c) (twi.data r c) (curvature.data r c) := by
  have hev : evaluate slope curvature twi flow_acc t fmt =
      if ((candidateCells slope curvature twi flow_acc).map
          (fun rc => mkCandidate slope curvature twi flow_acc t fmt rc.1 rc.2)).isEmpty
      then []
      else ((candidateCells slope curvature twi flow_acc).map
          (fun rc => mkCandidate slope curvature twi flow_acc t fmt rc.1 rc.2)).mergeSort
        (fun p q => decide (q.score ≤ p.score)) := rfl
  by_cases he : ((candidateCells slope curvature twi flow_acc).map
      (fun rc => mkCandidate slope curvature twi flow_acc t fmt rc.1 rc.2)).isEmpty
  · rw [hev, if_pos he] at hne
    exact absurd rfl hne
  · rw [hev, if_neg he]
    refine ⟨?_, List.mergeSort_perm _ _, ?_⟩
    · have hs := @List.sorted_mergeSort Candidate
        (fun p q : Candidate => decide (q.score ≤ p.score))
        (fun a b c hab hbc =>
          decide_eq_true (le_trans (of_decide_eq_true hbc) (of_decide_eq_true hab)))
        (fun a b => by
          rcases le_total b.score a.score with h | h
          · simp [decide_eq_true h]
          · simp [decide_eq_true h])
        ((candidateCells slope curvature twi flow_acc).map
          (fun rc => mkCandidate slope curvature twi flow_acc t fmt rc.1 rc.2))
      exact hs.imp (fun h => of_decide_eq_true h)
    · intro p hp
      have hpL : p ∈ (candidateCells slope curvature twi flow_acc).map
          (fun rc => mkCandidate slope curvature twi flow_acc t fmt rc.1 rc.2) :=
        (List.mergeSort_perm _ _).mem_iff.mp hp
      obtain ⟨⟨r, c⟩, hrc, hpe⟩ := List.mem_map.mp hpL
      subst hpe
      exact ⟨r, c, hrc, rfl, rfl, rfl, rfl, rfl, rfl, rfl, rfl, rfl⟩

/-- A 1-by-2 slope grid: steep in the first column, flat in the second. -/
def demoSlope : Grid := ⟨1, 2, fun _ j => if j = 0 then 30 else 0⟩

/-- A 1-by-2 constant concave-curvature grid. -/
def demoCurv : Grid := ⟨1, 2, fun _ _ => -2⟩

/-- A 1-by-2 TWI grid: dry in the first column, wet in the second. -/
def demoTwi : Grid := ⟨1, 2, fun _ j => if j = 0 then 0 else 10⟩

/-- A 1-by-2 all-zero flow-accumulation grid. -/
def demoFlow : Grid := ⟨1, 2, fun _ _ => 0⟩

/-- An identity-like affine transform. -/
def demoAffine : Affine := ⟨1, 0, 0, 0, 1, 0⟩

/-- A trivial number formatter standing in for the Python one-decimal
format. -/
def demoFmt : ℝ → String := fun _ => ""

/-- Witness for C8: on the concrete 1-by-2 grids exactly one cell qualifies,
so the result is non-empty and the theorem yields its sortedness. -/
theorem evaluate_sorted_candidates_witness :
    List.Sorted (fun p q : Candidate => q.score ≤ p.score)
      (evaluate demoSlope demoCurv demoTwi demoFlow demoAffine demoFmt) :=
  (evaluate_sorted_candidates demoSlope demoCurv demoTwi demoFlow demoAffine
    demoFmt (by
      have hmin : demoTwi.minVal = 0 :=
        min_eq_left (show (0 : ℝ) ≤ 10 by norm_num)
      have hmax : demoTwi.maxVal = 10 :=
        max_eq_right (show (0 : ℝ) ≤ 10 by norm_num)
      have hfz : ∀ i j, (flowScoreGrid demoFlow).data i j = 0 :=
        flowScore_zero_of_all_zero _ (fun _ _ _ _ => rfl)
      have ha : (slopeScoreGrid demoSlope).data 0 0 = 0 := by
        show (if (20 : ℝ) < 30 then (0 : ℝ) else max 0 (100 - 30 * 5)) = 0
        rw [if_pos (by norm_num : (20 : ℝ) < 30)]
      have hb : (slopeScoreGrid demoSlope).data 0 1 = 100 := by
        show (if (20 : ℝ) < 0 then (0 : ℝ) else max 0 (100 - 0 * 5)) = 100
        rw [if_neg (by norm_num : ¬((20 : ℝ) < 0))]
        norm_num
      have hcv : ∀ i j, (curvScoreGrid demoCurv).data i j = 100 := by
        intro i j
        show (if (-2 : ℝ) < 0 then min 100 (|(-2 : ℝ)| * 50) else 0) = 100
        rw [if_pos (by norm_num : (-2 : ℝ) < 0),
          abs_of_neg (by norm_num : (-2 : ℝ) < 0)]
        norm_num
      have htw0 : (twiScoreGrid demoTwi).data 0 0 = 0 := by
        show (if demoTwi.minVal < demoTwi.maxVal then
          (demoTwi.data 0 0 - demoTwi.minVal) /
            (demoTwi.maxVal - demoTwi.minVal) * 100 else 0) = 0
        rw [hmin, hmax, if_pos (by norm_num : (0 : ℝ) < 10)]
        show ((0 : ℝ) - 0) / (10 - 0) * 100 = 0
        norm_num
      have htw1 : (twiScoreGrid demoTwi).data 0 1 = 100 := by
        show (if demoTwi.minVal < demoTwi.maxVal then
          (demoTwi.data 0 1 - demoTwi.minVal) /
            (demoTwi.maxVal - demoTwi.minVal) * 100 else 0) = 100
        rw [hmin, hmax, if_pos (by norm_num : (0 : ℝ) < 10)]
        show ((10 : ℝ) - 0) / (10 - 0) * 100 = 100
        norm_num
      have h00 : (totalScoreGrid demoSlope demoCurv demoTwi demoFlow).data 0 0 = 20 := by
        show 0.3 * (slopeScoreGrid demoSlope).data 0 0 +
          0.2 * (curvScoreGrid demoCurv).data 0 0 +
          0.3 * (twiScoreGrid demoTwi).data 0 0 +
          0.2 * (flowScoreGrid demoFlow).data 0 0 = 20
        rw [ha, hcv 0 0, htw0, hfz 0 0]
        norm_num
      have h01 : (totalScoreGrid demoSlope demoCurv demoTwi demoFlow).data 0 1 = 80 := by
        show 0.3 * (slopeScoreGrid demoSlope).data 0 1 +
          0.2 * (curvScoreGrid demoCurv).data 0 1 +
          0.3 * (twiScoreGrid demoTwi).data 0 1 +
          0.2 * (flowScoreGrid demoFlow).data 0 1 = 80
        rw [hb, hcv 0 1, htw1, hfz 0 1]
        norm_num
      have d0 : decide (scoreThreshold ≤
          (totalScoreGrid demoSlope demoCurv demoTwi demoFlow).data 0 0) = false := by
        rw [h00]
        exact decide_eq_false (by norm_num [scoreThreshold])
      have d1 : decide (scoreThreshold ≤
          (totalScoreGrid demoSlope demoCurv demoTwi demoFlow).data 0 1) = true := by
        rw [h01]
        exact decide_eq_true (by norm_num [scoreThreshold])
      have hcells : candidateCells demoSlope demoCurv demoTwi demoFlow = [(0, 1)] := by
        show (List.range 1).flatMap (fun r => ((List.range 2).filter
          (fun c => decide (scoreThreshold ≤
            (totalScoreGrid demoSlope demoCurv demoTwi demoFlow).data r c))).map
          (fun c => (r, c))) = [(0, 1)]
        simp [List.range_succ, d0, d1]
      have hev2 : evaluate demoSlope demoCurv demoTwi demoFlow demoAffine demoFmt =
          [mkCandidate demoSlope demoCurv demoTwi demoFlow demoAffine demoFmt 0 1] := by
        show (if ((candidateCells demoSlope demoCurv demoTwi demoFlow).map
            (fun rc => mkCandidate demoSlope demoCurv demoTwi demoFlow demoAffine
              demoFmt rc.1 rc.2)).isEmpty
          then []
          else ((candidateCells demoSlope demoCurv demoTwi demoFlow).map
            (fun rc => mkCandidate demoSlope demoCurv demoTwi demoFlow demoAffine
              demoFmt rc.1 rc.2)).mergeSort
            (fun p q => decide (q.score ≤ p.score))) = _
        rw [hcells]
        simp [List.mergeSort_singleton]
      rw [hev2]
      exact List.cons_ne_nil _ _)).1

end
